import Mathlib

/-!
Verification of the game-master chat application (`src/main.py`).

The program is embedded shallowly:

* The two tool functions `roll_dice` and `generate_event` are pure up to a
  call to Python's `random` module; the random draw is modelled by an explicit
  natural-number parameter `k`, reduced modulo the size of the candidate
  range, so every possible draw corresponds to some `k`.
* `random.randint(1, sides)` raises `ValueError` when `sides < 1`; this is
  modelled by returning `none`.
* The chainlit turn handler `main` is modelled as a pure function over the
  session history, the incoming user message, the list of stream events the
  runtime produced, and an optional failure raised during streaming.
* Agent descriptors keep only the structure the external runtime inspects
  (name, tool bindings, handoff targets); the instruction prompts are free
  text interpreted by the external model and carry no program semantics.
-/

/-- Python's `str.lower()` as used by `generate_event`: per-character
lowercasing over the string's characters.  (`Char.toLower` lowers the basic
latin letters, which covers every key of the event table.) -/
def py_lower (s : String) : String :=
  ⟨s.data.map Char.toLower⟩

/-- The three candidate events for the `"forest"` key of the event table
(`src/main.py`, lines 48-52). -/
def forestEvents : List String :=
  ["You hear rustling in the bushes. A goblin appears!",
   "You find an ancient tree with glowing runes.",
   "A traveling merchant offers you a mysterious potion."]

/-- The three candidate events for the `"dungeon"` key of the event table
(`src/main.py`, lines 53-57). -/
def dungeonEvents : List String :=
  ["A trap triggers beneath your feet!",
   "A skeleton warrior blocks your path.",
   "You discover a chest filled with gold... or is it a mimic?"]

/-- The three candidate events for the `"village"` key of the event table
(`src/main.py`, lines 58-62). -/
def villageEvents : List String :=
  ["A child runs up to you, asking for help.",
   "The blacksmith offers to upgrade your weapon.",
   "You overhear talk of a dragon nearby."]

/-- The one-element default list passed to `events.get` in
`generate_event` (`src/main.py`, line 64). -/
def fallbackEvents : List String :=
  ["Nothing unusual happens..."]

/-- The dictionary `events` of `generate_event`: lookup is by exact string
equality on the key, as for a Python `dict`. -/
def eventTable (key : String) : Option (List String) :=
  if key = "forest" then some forestEvents
  else if key = "dungeon" then some dungeonEvents
  else if key = "village" then some villageEvents
  else none

/-- `generate_event(context)` from `src/main.py`, lines 44-64:
`random.choice(events.get(context.lower(), ["Nothing unusual happens..."]))`.
The uniform choice is modelled by the index `k % length`; the list indexed
into is never empty, so the `""` default of `getD` is never produced. -/
def generate_event (context : String) (k : Nat) : String :=
  let candidates := (eventTable (py_lower context)).getD fallbackEvents
  candidates.getD (k % candidates.length) ""

/-- The default value of the `sides` parameter of `roll_dice`
(`src/main.py`, line 40). -/
def roll_dice_default_sides : Int := 20

/-- `roll_dice(sides)` from `src/main.py`, lines 39-42:
`random.randint(1, sides)`.  `randint(1, sides)` raises `ValueError` when
`sides < 1` (empty range), modelled by `none`; otherwise it returns a uniform
integer in `[1, sides]`, modelled by `1 + k % sides`. -/
def roll_dice (sides : Int) (k : Nat) : Option Int :=
  if sides < 1 then none
  else some (1 + ((k % sides.toNat : Nat) : Int))

/-- A role-tagged chat message, the entries of the `chat_history` list kept
in the chainlit user session (`src/main.py`, lines 116, 129, 144). -/
structure Msg where
  role : String
  content : String

/-- One event yielded by `result.stream_events()` in the turn handler
(`src/main.py`, lines 140-142): either a `raw_response_event` whose data
carries a `delta` string, or any other event (ignored by the handler). -/
inductive StreamEvent where
  | rawDelta (delta : String) : StreamEvent
  | other : StreamEvent

/-- The deltas the `async for` loop of the turn handler forwards to the UI
via `msg.stream_token`, in stream order (`src/main.py`, lines 140-142). -/
def streamedTokens (events : List StreamEvent) : List String :=
  events.filterMap fun e =>
    match e with
    | StreamEvent.rawDelta d => some d
    | StreamEvent.other => none

/-- Observable outcome of one invocation of the turn handler `main`:
the session history after the turn, the final content of the UI response
message, the tokens forwarded to the UI stream, what was logged via
`print`, and whether the handler returned normally (it always does: the
`try/except` swallows every exception). -/
structure TurnResult where
  history : List Msg
  msgContent : String
  uiTokens : List String
  logged : Option String
  alive : Bool

/-- The chainlit turn handler `main` (`src/main.py`, lines 126-149),
modelled over the prior history, the incoming user message content, the
stream events produced before the streaming execution either completes
(`failure = none`) or raises (`failure = some e` with exception text `e`):

* the user message is appended to the history first (line 129);
* each `raw_response_event` delta is forwarded to the UI and accumulated
  into the response message content (lines 140-142);
* on success the concatenated content is appended as one assistant message
  (line 144) and saved (line 145);
* on failure the `except` block overwrites the message content with
  `"❌ Error: " ++ e` (line 148) and prints `"Error: " ++ e` (line 149);
  no assistant message is appended, the exception is not re-raised. -/
def main_handler (history0 : List Msg) (userContent : String)
    (events : List StreamEvent) (failure : Option String) : TurnResult :=
  let history1 := history0 ++ [⟨"user", userContent⟩]
  let toks := streamedTokens events
  let streamed := String.join toks
  match failure with
  | none =>
      ⟨history1 ++ [⟨"assistant", streamed⟩], streamed, toks, none, true⟩
  | some e =>
      ⟨history1, "❌ Error: " ++ e, toks, some ("Error: " ++ e), true⟩

/-- One completed turn of a session: the user's message content and the
stream events of the (successful) streaming execution. -/
structure Turn where
  userContent : String
  events : List StreamEvent

/-- The two history entries a completed turn contributes. -/
def turnMsgs (t : Turn) : List Msg :=
  [⟨"user", t.userContent⟩, ⟨"assistant", String.join (streamedTokens t.events)⟩]

/-- The session history after a sequence of completed turns, starting from
the empty history installed by `start` (`src/main.py`, line 116) and
running the turn handler once per turn. -/
def sessionHistory (turns : List Turn) : List Msg :=
  turns.foldl (fun h t => (main_handler h t.userContent t.events none).history) []

/-- An agent descriptor as constructed by `Agent(...)` in `src/main.py`:
name, the list of bound tools (identified by the tool function's name) and
the list of handoff targets.  The instruction prompt is free text
interpreted by the external model runtime and carries no program
semantics, so it is not part of the embedded structure. -/
structure AgentDef where
  name : String
  tools : List String
  handoffs : List AgentDef

/-- `NarratorAgent` (`src/main.py`, lines 67-74): no tools, no handoffs. -/
def NarratorAgent : AgentDef :=
  ⟨"NarratorAgent", [], []⟩

/-- `MonsterAgent` (`src/main.py`, lines 76-85): owns the dice tool. -/
def MonsterAgent : AgentDef :=
  ⟨"MonsterAgent", ["roll_dice"], []⟩

/-- `ItemAgent` (`src/main.py`, lines 87-95): owns the event tool. -/
def ItemAgent : AgentDef :=
  ⟨"ItemAgent", ["generate_event"], []⟩

/-- `GameTriageAgent` (`src/main.py`, lines 98-111): no tools, hands off
to `MonsterAgent` and `ItemAgent`. -/
def GameTriageAgent : AgentDef :=
  ⟨"GameTriageAgent", [], [MonsterAgent, ItemAgent]⟩

/-- Startup check of the environment (`src/main.py`, lines 19-21):
`api_key = os.getenv("GEMINI_API_KEY")`, then `if not api_key: raise
ValueError(...)`.  In Python `not api_key` is true when the variable is
unset (`None`) or the empty string; the raise is modelled by
`Except.error` carrying the exception message. -/
def checkApiKey (v : Option String) : Except String String :=
  match v with
  | none => Except.error "GEMINI_API_KEY is not set in your .env file."
  | some k =>
      if k.isEmpty then Except.error "GEMINI_API_KEY is not set in your .env file."
      else Except.ok k

/-- Whether the process proceeds to serve chat sessions: the chainlit
handlers `start` and `main` are only registered if the module executes past
the raise at line 21, i.e. if the startup check succeeds. -/
def servesSessions (v : Option String) : Bool :=
  match checkApiKey v with
  | Except.ok _ => true
  | Except.error _ => false

/-- Helper: `random.choice`, modelled as indexing at `k % length`, returns an
element of the list whenever the list is nonempty. -/
theorem choice_mem (l : List String) (hl : l ≠ []) (k : Nat) :
    l.getD (k % l.length) "" ∈ l := by
  have hlen : 0 < l.length := List.length_pos.mpr hl
  have hk : k % l.length < l.length := Nat.mod_lt _ hlen
  rw [List.getD_eq_getElem?_getD, List.getElem?_eq_getElem hk]
  exact List.getElem_mem hk

/-- Helper: the candidate list `generate_event` chooses from is never
empty, whatever the key. -/
theorem candidates_ne_nil (key : String) :
    (eventTable key).getD fallbackEvents ≠ [] := by
  unfold eventTable
  repeat' split
  all_goals simp [forestEvents, dungeonEvents, villageEvents, fallbackEvents]

/-- Helper: `generate_event` always returns an element of the candidate
list selected by the lower-cased context. -/
theorem generate_event_mem_candidates (context : String) (k : Nat) :
    generate_event context k ∈ (eventTable (py_lower context)).getD fallbackEvents := by
  unfold generate_event
  exact choice_mem _ (candidates_ne_nil _) k

/-- Helper: when the lower-cased context matches none of the three keys,
`generate_event` returns the fallback string. -/
theorem generate_event_fallback (context : String) (k : Nat)
    (h1 : py_lower context ≠ "forest") (h2 : py_lower context ≠ "dungeon")
    (h3 : py_lower context ≠ "village") :
    generate_event context k = "Nothing unusual happens..." := by
  unfold generate_event
  simp [eventTable, h1, h2, h3, fallbackEvents, Nat.mod_one]

/-- C1: for every context whose lower-cased form is `"forest"`, `"dungeon"`
or `"village"`, `generate_event` returns a member of that key's fixed
candidate set (three candidates per key); for every other context it returns
exactly `"Nothing unusual happens..."`. -/
theorem generate_event_candidate_sets (context : String) (k : Nat) :
    (forestEvents.length = 3 ∧ dungeonEvents.length = 3 ∧ villageEvents.length = 3) ∧
    (py_lower context = "forest" → generate_event context k ∈ forestEvents) ∧
    (py_lower context = "dungeon" → generate_event context k ∈ dungeonEvents) ∧
    (py_lower context = "village" → generate_event context k ∈ villageEvents) ∧
    (py_lower context ≠ "forest" → py_lower context ≠ "dungeon" →
      py_lower context ≠ "village" →
      generate_event context k = "Nothing unusual happens...") := by
  have hmem := generate_event_mem_candidates context k
  refine ⟨by decide, ?_, ?_, ?_, fun h1 h2 h3 => generate_event_fallback context k h1 h2 h3⟩
  all_goals intro h
  all_goals rw [h] at hmem
  all_goals simpa [eventTable] using hmem

/-- Witness for C1 at the concrete context `"FOREST"`. -/
theorem generate_event_candidate_sets_witness :
    py_lower "FOREST" = "forest" ∧ generate_event "FOREST" 4 ∈ forestEvents :=
  ⟨by decide, (generate_event_candidate_sets "FOREST" 4).2.1 (by decide)⟩

/-- Helper: for `sides ≥ 1` the dice roll succeeds with a value in
`[1, sides]`. -/
theorem roll_dice_bounds (sides : Int) (k : Nat) (h : 1 ≤ sides) :
    ∃ v, roll_dice sides k = some v ∧ 1 ≤ v ∧ v ≤ sides := by
  refine ⟨1 + ((k % sides.toNat : Nat) : Int), ?_, ?_, ?_⟩
  · unfold roll_dice
    rw [if_neg (by omega)]
  · omega
  · have h1 : ((sides.toNat : Nat) : Int) = sides := Int.toNat_of_nonneg (by omega)
    have h2 : k % sides.toNat < sides.toNat := Nat.mod_lt _ (by omega)
    omega

/-- C2: for every `sides ≥ 1`, `roll_dice sides` returns an integer in
`[1, sides]`; with the default argument (`sides = 20`) the result lies in
`[1, 20]`. -/
theorem roll_dice_in_range (sides : Int) (k : Nat) (h : 1 ≤ sides) :
    (∃ v, roll_dice sides k = some v ∧ 1 ≤ v ∧ v ≤ sides) ∧
    (∃ v, roll_dice roll_dice_default_sides k = some v ∧ 1 ≤ v ∧ v ≤ 20) := by
  refine ⟨roll_dice_bounds sides k h, ?_⟩
  simpa [roll_dice_default_sides] using roll_dice_bounds 20 k (by norm_num)

/-- Witness for C2 at `sides = 6`, draw `7`. -/
theorem roll_dice_in_range_witness :
    (1 : Int) ≤ 6 ∧
    ((∃ v, roll_dice 6 7 = some v ∧ 1 ≤ v ∧ v ≤ 6) ∧
     (∃ v, roll_dice roll_dice_default_sides 7 = some v ∧ 1 ≤ v ∧ v ≤ 20)) :=
  ⟨by norm_num, roll_dice_in_range 6 7 (by norm_num)⟩

/-- C3 counterexample: `roll_dice 0` does not resolve to a fallback value;
`random.randint(1, 0)` raises `ValueError` (modelled by `none`), so the
claim that every tool-boundary edge input is resolved by a fallback and
never raised as an error is false for non-positive dice sides. -/
theorem roll_dice_zero_raises : roll_dice 0 0 = none := by decide

/-- C3 amended: an unknown context string passed to `generate_event` is
resolved by the fallback string and never raises; `roll_dice`, however,
raises for every `sides < 1` and only succeeds for `sides ≥ 1`. -/
theorem tool_edge_cases (s : String) (sides : Int) (k : Nat) :
    (eventTable (py_lower s) = none → generate_event s k = "Nothing unusual happens...") ∧
    (sides < 1 → roll_dice sides k = none) ∧
    (1 ≤ sides → (roll_dice sides k).isSome = true) := by
  refine ⟨?_, ?_, ?_⟩
  · intro h
    unfold generate_event
    rw [h]
    simp [fallbackEvents, Nat.mod_one]
  · intro h
    unfold roll_dice
    rw [if_pos h]
  · intro h
    unfold roll_dice
    rw [if_neg (by omega)]
    rfl

/-- Witness for the amended C3 at the unknown context `"cave"` and at
`sides = -5`, `sides = 6`. -/
theorem tool_edge_cases_witness :
    generate_event "cave" 3 = "Nothing unusual happens..." ∧
    roll_dice (-5) 0 = none ∧ (roll_dice 6 2).isSome = true :=
  ⟨(tool_edge_cases "cave" (-5) 3).1 (by decide),
   (tool_edge_cases "cave" (-5) 0).2.1 (by norm_num),
   (tool_edge_cases "cave" 6 2).2.2 (by norm_num)⟩

/-- C4: every failure raised during the streaming execution is absorbed by
the turn handler (which is a total function: the `except` block swallows
the exception and nothing re-raises it): the response message content is
overwritten with the distinctly prefixed string `"❌ Error: " ++ e`, the
error is logged, no assistant message is appended to the history for that
turn, and the handler returns normally so the session and process stay
alive for the next turn. -/
theorem turn_error_contained (h0 : List Msg) (u : String)
    (evs : List StreamEvent) (e : String) :
    (main_handler h0 u evs (some e)).history = h0 ++ [Msg.mk "user" u] ∧
    (main_handler h0 u evs (some e)).msgContent = "❌ Error: " ++ e ∧
    (main_handler h0 u evs (some e)).logged = some ("Error: " ++ e) ∧
    (main_handler h0 u evs (some e)).alive = true :=
  ⟨rfl, rfl, rfl, rfl⟩

/-- Witness for C4 at a concrete failing turn. -/
theorem turn_error_contained_witness :
    (main_handler [] "hi" [StreamEvent.rawDelta "par"] (some "boom")).history
      = [] ++ [Msg.mk "user" "hi"] ∧
    (main_handler [] "hi" [StreamEvent.rawDelta "par"] (some "boom")).msgContent
      = "❌ Error: " ++ "boom" ∧
    (main_handler [] "hi" [StreamEvent.rawDelta "par"] (some "boom")).logged
      = some ("Error: " ++ "boom") ∧
    (main_handler [] "hi" [StreamEvent.rawDelta "par"] (some "boom")).alive = true :=
  turn_error_contained [] "hi" [StreamEvent.rawDelta "par"] "boom"

/-- Helper: closed form of the session history fold. -/
theorem sessionHistory_foldl (turns : List Turn) (h0 : List Msg) :
    turns.foldl (fun h t => (main_handler h t.userContent t.events none).history) h0
      = h0 ++ (turns.map turnMsgs).flatten := by
  induction turns generalizing h0 with
  | nil => simp
  | cons t ts ih =>
      rw [List.foldl_cons, ih]
      simp [main_handler, turnMsgs]

/-- Helper: each completed turn contributes exactly two history entries. -/
theorem turnMsgs_flatten_length (turns : List Turn) :
    ((turns.map turnMsgs).flatten).length = 2 * turns.length := by
  induction turns with
  | nil => rfl
  | cons t ts ih =>
      have h2 : (turnMsgs t).length = 2 := rfl
      rw [List.map_cons, List.flatten_cons, List.length_append, ih, h2, List.length_cons]
      omega

/-- C5: after `N` completed turns the session history is exactly the
concatenation, in chronological order, of one user entry followed by one
assistant entry per turn; its length is `2 * N`; and running one more turn
only appends to the existing history (append-only, no retroactive
mutation). -/
theorem history_append_only (turns : List Turn) :
    sessionHistory turns = (turns.map turnMsgs).flatten ∧
    (sessionHistory turns).length = 2 * turns.length ∧
    ∀ t, sessionHistory (turns ++ [t]) = sessionHistory turns ++ turnMsgs t := by
  refine ⟨by simpa [sessionHistory] using sessionHistory_foldl turns [], ?_, ?_⟩
  · rw [show sessionHistory turns = (turns.map turnMsgs).flatten from
      by simpa [sessionHistory] using sessionHistory_foldl turns []]
    exact turnMsgs_flatten_length turns
  · intro t
    rw [sessionHistory, sessionHistory, sessionHistory_foldl, sessionHistory_foldl]
    simp

/-- Witness for C5 at a concrete one-turn session. -/
theorem history_append_only_witness :
    (sessionHistory [Turn.mk "go" [StreamEvent.rawDelta "a", StreamEvent.rawDelta "b"]]).length
      = 2 * 1 :=
  (history_append_only [Turn.mk "go" [StreamEvent.rawDelta "a", StreamEvent.rawDelta "b"]]).2.1

/-- C6: `generate_event` is case-insensitive: two contexts with the same
lower-cased form select the same candidate list, and produce the same
output at every random draw, so the set of possible outputs is invariant
under case changes of the input. -/
theorem generate_event_case_insensitive (s t : String) (h : py_lower s = py_lower t) :
    (eventTable (py_lower s)).getD fallbackEvents
      = (eventTable (py_lower t)).getD fallbackEvents ∧
    ∀ k, generate_event s k = generate_event t k := by
  constructor
  · rw [h]
  · intro k
    unfold generate_event
    rw [h]

/-- Witness for C6 at `"Forest"` and `"forest"`. -/
theorem generate_event_case_insensitive_witness :
    py_lower "Forest" = py_lower "forest" ∧
    generate_event "Forest" 1 = generate_event "forest" 1 :=
  ⟨by decide, (generate_event_case_insensitive "Forest" "forest" (by decide)).2 1⟩

/-- C7: if the `GEMINI_API_KEY` environment variable is absent (or empty,
which Python's `not api_key` also treats as missing), the startup check
raises the descriptive `ValueError` and the process registers no chat
handlers, so no session can start. -/
theorem startup_requires_api_key (v : Option String) (h : v = none ∨ v = some "") :
    checkApiKey v = Except.error "GEMINI_API_KEY is not set in your .env file." ∧
    servesSessions v = false := by
  rcases h with h | h <;> subst h <;> exact ⟨rfl, rfl⟩

/-- Witness for C7 with the variable unset. -/
theorem startup_requires_api_key_witness :
    ((none : Option String) = none ∨ (none : Option String) = some "") ∧
    (checkApiKey none = Except.error "GEMINI_API_KEY is not set in your .env file." ∧
     servesSessions none = false) :=
  ⟨Or.inl rfl, startup_requires_api_key none (Or.inl rfl)⟩

/-- C8: the static agent configuration: the triage agent owns no tools and
hands off exactly to `MonsterAgent` and `ItemAgent`; `NarratorAgent` owns
no tools; `MonsterAgent` owns exactly the dice tool; `ItemAgent` owns
exactly the event tool. -/
theorem agent_configuration :
    GameTriageAgent.tools = [] ∧
    GameTriageAgent.handoffs = [MonsterAgent, ItemAgent] ∧
    NarratorAgent.tools = [] ∧
    MonsterAgent.tools = ["roll_dice"] ∧
    ItemAgent.tools = ["generate_event"] :=
  ⟨rfl, rfl, rfl, rfl, rfl⟩

/-- C9: on a successful turn every streamed delta is forwarded to the UI in
stream order, and the assistant entry appended to the history is exactly
the concatenation of the forwarded deltas, appended as one message after
the user entry. -/
theorem turn_success_streams (h0 : List Msg) (u : String) (evs : List StreamEvent) :
    (main_handler h0 u evs none).uiTokens = streamedTokens evs ∧
    (main_handler h0 u evs none).msgContent = String.join (streamedTokens evs) ∧
    (main_handler h0 u evs none).history
      = h0 ++ [Msg.mk "user" u, Msg.mk "assistant" (String.join (streamedTokens evs))] := by
  refine ⟨rfl, rfl, ?_⟩
  simp [main_handler]

/-- Witness for C9 at a concrete successful turn. -/
theorem turn_success_streams_witness :
    (main_handler [] "hi" [StreamEvent.rawDelta "He", StreamEvent.other,
        StreamEvent.rawDelta "llo"] none).uiTokens
      = streamedTokens [StreamEvent.rawDelta "He", StreamEvent.other,
        StreamEvent.rawDelta "llo"] ∧
    (main_handler [] "hi" [StreamEvent.rawDelta "He", StreamEvent.other,
        StreamEvent.rawDelta "llo"] none).msgContent
      = String.join (streamedTokens [StreamEvent.rawDelta "He", StreamEvent.other,
        StreamEvent.rawDelta "llo"]) ∧
    (main_handler [] "hi" [StreamEvent.rawDelta "He", StreamEvent.other,
        StreamEvent.rawDelta "llo"] none).history
      = [] ++ [Msg.mk "user" "hi",
          Msg.mk "assistant" (String.join (streamedTokens [StreamEvent.rawDelta "He",
            StreamEvent.other, StreamEvent.rawDelta "llo"]))] :=
  turn_success_streams [] "hi"
    [StreamEvent.rawDelta "He", StreamEvent.other, StreamEvent.rawDelta "llo"]

/-- C10: key matching is exact equality after lower-casing: any context
whose lower-cased form differs from all three keys, including strings that
merely contain a key as a substring or carry extra characters or
whitespace, yields the fallback string. -/
theorem generate_event_exact_match (s : String) (k : Nat)
    (h1 : py_lower s ≠ "forest") (h2 : py_lower s ≠ "dungeon")
    (h3 : py_lower s ≠ "village") :
    generate_event s k = "Nothing unusual happens..." :=
  generate_event_fallback s k h1 h2 h3

/-- Witness for C10 at `"the forest"`, `" forest"` and `"forest!"`. -/
theorem generate_event_exact_match_witness :
    (py_lower "the forest" ≠ "forest" ∧ py_lower " forest" ≠ "forest" ∧
     py_lower "forest!" ≠ "forest") ∧
    generate_event "the forest" 0 = "Nothing unusual happens..." ∧
    generate_event " forest" 1 = "Nothing unusual happens..." ∧
    generate_event "forest!" 2 = "Nothing unusual happens..." :=
  ⟨by decide,
   generate_event_exact_match "the forest" 0 (by decide) (by decide) (by decide),
   generate_event_exact_match " forest" 1 (by decide) (by decide) (by decide),
   generate_event_exact_match "forest!" 2 (by decide) (by decide) (by decide)⟩
